import Mathlib

/-!
Shallow embedding of the MEX correlation/anomaly core
(`src/mex/correlate.py`, `src/mex/analyze.py`) and proofs of the
specification's testable properties over it.

Modelling conventions, documented once here:
* Python dicts of the fixed metadata schema become structures with
  `Option` fields; an absent key is `none`.  A Python truthiness test on a
  string field (`if d.get(k):`) is "present and not the empty string".
* `dateutil.parser.parse` is an external library; it is modelled by a
  parameter `parse : String → Option PyDate` (`none` = the parser raises).
  A `PyDate` carries the point in time in seconds and the calendar year,
  the only two facets the code reads (comparisons, `timedelta` seconds /
  floored days, `.year`).
* `datetime.now()` is a parameter `now : Int` (seconds).
* `collections.defaultdict(list)` insertion grouping is modelled by
  `groupPairs`: keys in first-occurrence order, each key with its values in
  input order.  Python `set` iteration order is abstracted to
  first-insertion order (`dedupFirst`); no claim depends on that order.
* Floating point trigonometry in `_calculate_distance` is modelled over
  `ℝ`; decimal formatting of GPS values and Python's `round` banker's
  rounding are modelled by plain half-up rounding, which no claim inspects.
-/

/-- Keep the first occurrence of every element, preserving order (the
deterministic stand-in for Python `set` insertion / `dict` key order). -/
def dedupFirst : List String → List String
  | [] => []
  | x :: xs => x :: (dedupFirst xs).filter (fun y => y ≠ x)

/-- All unordered pairs of a list in the order the source's double loop
`for i: for j in range(i+1, ...)` visits them. -/
def listPairs {α : Type} : List α → List (α × α)
  | [] => []
  | x :: xs => (xs.map (fun y => (x, y))) ++ listPairs xs

/-- `defaultdict(list)` grouping of (key, value) pairs: keys in
first-occurrence order, each key paired with its values in input order. -/
def groupPairs (l : List (String × String)) : List (String × List String) :=
  (dedupFirst (l.map (·.1))).map (fun k => (k, (l.filter (fun p => p.1 = k)).map (·.2)))

/-- Does `n` occur at the start of `l`? (list prefix test used by
`listHasSub`). -/
def listHasPref : List Char → List Char → Bool
  | _, [] => true
  | [], _ :: _ => false
  | a :: as, b :: bs => a = b && listHasPref as bs

/-- Does `n` occur contiguously inside `l`? -/
def listHasSub : List Char → List Char → Bool
  | [], n => n.isEmpty
  | a :: as, n => listHasPref (a :: as) n || listHasSub as n

/-- Python's `needle in hay` substring test. -/
def strContains (hay needle : String) : Bool :=
  listHasSub hay.toList needle.toList

/-- Python's `str.lower` on the ASCII range (`Char.toLower` per character;
the records under analysis are ASCII). -/
def pyLower (s : String) : String := ⟨s.data.map Char.toLower⟩

/-- Python's `str.strip`: drop leading and trailing whitespace. -/
def pyStrip (s : String) : String :=
  ⟨((s.data.dropWhile Char.isWhitespace).reverse.dropWhile Char.isWhitespace).reverse⟩

/-- Python truthiness of an optional string field: present and non-empty. -/
def truthyStr (o : Option String) : Option String :=
  o.bind (fun s => if s = "" then none else some s)

/-- The time/year pair the code reads off a parsed `datetime`. -/
structure PyDate where
  sec : Int
  year : Int
  deriving DecidableEq, Repr

/-- `file_info` block of a metadata record. -/
structure FileInfo where
  name : Option String
  ftype : Option String
  size : Option ℚ
  hash_sha256 : Option String
  deriving DecidableEq, Repr

/-- `timestamps` block of a metadata record. -/
structure Timestamps where
  created : Option String
  modified : Option String
  accessed : Option String
  deriving DecidableEq, Repr

/-- `metadata.exif.camera`. -/
structure Camera where
  make : Option String
  model : Option String
  deriving DecidableEq, Repr

/-- `metadata.exif.gps.coordinates`; the extractors (`utils.parse_gps_coordinates`)
only ever store parsed floats here, so the values are numeric. -/
structure Coordinates where
  latitude : Option ℚ
  longitude : Option ℚ
  deriving DecidableEq, Repr

/-- `metadata.exif.gps`. -/
structure Gps where
  coordinates : Option Coordinates
  timestamp : Option String
  deriving DecidableEq, Repr

/-- `metadata.exif.software`. -/
structure SoftwareInfo where
  software : Option String
  artist : Option String
  deriving DecidableEq, Repr

/-- `metadata.exif.dates`. -/
structure ExifDates where
  datetime_original : Option String
  deriving DecidableEq, Repr

/-- `metadata.exif`. -/
structure Exif where
  camera : Option Camera
  gps : Option Gps
  software : Option SoftwareInfo
  dates : Option ExifDates
  deriving DecidableEq, Repr

/-- `metadata.document`. -/
structure DocumentMeta where
  author : Option String
  creator : Option String
  producer : Option String
  created : Option String
  modified : Option String
  deriving DecidableEq, Repr

/-- `metadata.media.audio_tags`. -/
structure AudioTags where
  artist : Option String
  deriving DecidableEq, Repr

/-- `metadata.media`. -/
structure MediaMeta where
  audio_tags : Option AudioTags
  deriving DecidableEq, Repr

/-- `metadata.web`. -/
structure WebMeta where
  generator : Option String
  deriving DecidableEq, Repr

/-- `metadata.archive`. -/
structure ArchiveMeta where
  file_count : Option ℚ
  deriving DecidableEq, Repr

/-- The domain-keyed `metadata` bag; `image` marks the presence of the basic
image-properties block that `_check_metadata_tampering` tests for. -/
structure MetaBag where
  exif : Option Exif
  document : Option DocumentMeta
  media : Option MediaMeta
  web : Option WebMeta
  archive : Option ArchiveMeta
  image : Option Unit
  deriving DecidableEq, Repr

/-- One metadata record, the per-file input to both engines. -/
structure Record where
  file_info : Option FileInfo
  timestamps : Option Timestamps
  metadata : Option MetaBag
  deriving DecidableEq, Repr

/-- `metadata.get('file_info', {}).get('name', f'file_{idx}')`. -/
def recName (idx : Nat) (r : Record) : String :=
  (r.file_info.bind FileInfo.name).getD ("file_" ++ toString idx)

/-- `metadata.get('file_info', {}).get('type')`. -/
def recType (r : Record) : Option String :=
  r.file_info.bind FileInfo.ftype

/-- `metadata.get('metadata', {}).get('exif', {})` as an optional block. -/
def recExif (r : Record) : Option Exif :=
  r.metadata.bind MetaBag.exif

/-- `metadata.get('metadata', {}).get('document', {})` as an optional block. -/
def recDoc (r : Record) : Option DocumentMeta :=
  r.metadata.bind MetaBag.document

/-! ## AnomalyDetector (`src/mex/analyze.py`) -/

/-- One entry of `self.anomalies`.  `details` keeps the numeric detail
entries the checks record (string echoes of dates carry no information a
claim inspects and are omitted). -/
structure Anomaly where
  file : String
  type : String
  severity : String
  details : List (String × ℚ)
  deriving DecidableEq, Repr

/-- `timestamps.get('created')` under the truthiness test of
`_check_timestamp_anomalies` line 69. -/
def tsCreated (r : Record) : Option String :=
  truthyStr (r.timestamps.bind Timestamps.created)

/-- `timestamps.get('modified')`, line 70. -/
def tsModified (r : Record) : Option String :=
  truthyStr (r.timestamps.bind Timestamps.modified)

/-- `metadata.get('metadata', {}).get('exif', {}).get('dates', {})
.get('datetime_original')` under its truthiness test. -/
def tsExifOriginal (r : Record) : Option String :=
  truthyStr ((recExif r).bind Exif.dates |>.bind ExifDates.datetime_original)

/-- Python `timedelta.days`: floored division of the elapsed seconds. -/
def tdDays (sec : Int) : Int := Int.fdiv sec 86400

/-- Third part of the `_check_timestamp_anomalies` body (lines 105-120):
the EXIF / filesystem discrepancy check, given the already-parsed `created`
and `modified`.  `.error l` models an exception raised by
`date_parser.parse` with the anomalies appended so far being `l`. -/
def checkTimestampBody3 (parse : String → Option PyDate) (now : Int)
    (fname : String) (r : Record) (created modified : Option PyDate) :
    Except (List Anomaly) (List Anomaly) :=
  let base : List Anomaly :=
    (match created, modified with
     | some c, some m =>
       if m.sec < c.sec then
         [⟨fname, "timestamp_inconsistency", "high", []⟩] else []
     | _, _ => []) ++
    (match created with
     | some c => if now < c.sec then [⟨fname, "future_timestamp", "high", []⟩] else []
     | none => []) ++
    (match modified with
     | some m => if now < m.sec then [⟨fname, "future_timestamp", "high", []⟩] else []
     | none => [])
  match tsExifOriginal r with
  | none => .ok base
  | some es =>
    match parse es with
    | none => .error base
    | some e =>
      match created with
      | some c =>
        if 365 < |tdDays (e.sec - c.sec)| then
          .ok (base ++ [⟨fname, "timestamp_discrepancy", "medium",
            [("difference_days", ((|tdDays (e.sec - c.sec)| : Int) : ℚ))]⟩])
        else .ok base
      | none => .ok base

/-- Second part of the body: parse `modified` (line 70); a parse failure
raises before anything was appended. -/
def checkTimestampBody2 (parse : String → Option PyDate) (now : Int)
    (fname : String) (r : Record) (created : Option PyDate) :
    Except (List Anomaly) (List Anomaly) :=
  match tsModified r with
  | some ms =>
    match parse ms with
    | none => .error []
    | some m => checkTimestampBody3 parse now fname r created (some m)
  | none => checkTimestampBody3 parse now fname r created none

/-- The whole `try` body of `_check_timestamp_anomalies`: parse `created`
(line 69) first. -/
def checkTimestampBody (parse : String → Option PyDate) (now : Int)
    (fname : String) (r : Record) : Except (List Anomaly) (List Anomaly) :=
  match tsCreated r with
  | some cs =>
    match parse cs with
    | none => .error []
    | some c => checkTimestampBody2 parse now fname r (some c)
  | none => checkTimestampBody2 parse now fname r none

/-- `_check_timestamp_anomalies`: the `except` clause (line 122) catches
any raise from the body and keeps whatever was appended before it. -/
def checkTimestampAnomalies (parse : String → Option PyDate) (now : Int)
    (fname : String) (r : Record) : List Anomaly :=
  match checkTimestampBody parse now fname r with
  | .ok l => l
  | .error l => l

/-- The fixed `SOFTWARE_RELEASE_DATES` table, in dict insertion order. -/
def SOFTWARE_RELEASE_DATES : List (String × String × Int) :=
  [("photoshop", "Adobe Photoshop", 1990),
   ("lightroom", "Adobe Lightroom", 2007),
   ("gimp", "GIMP", 1996),
   ("word", "Microsoft Word", 1983),
   ("excel", "Microsoft Excel", 1985)]

/-- `_check_software_anomalies` (lines 125-174); its inner `try` around the
`datetime_original` parse swallows a parse failure before any append. -/
def checkSoftwareAnomalies (parse : String → Option PyDate)
    (fname : String) (r : Record) : List Anomaly :=
  let software := ((recExif r).bind Exif.software |>.bind SoftwareInfo.software).getD ""
  let part1 : List Anomaly :=
    if software ≠ "" then
      match tsExifOriginal r with
      | some es =>
        match parse es with
        | none => []
        | some d =>
          SOFTWARE_RELEASE_DATES.filterMap (fun kv =>
            if strContains (pyLower software) kv.1 ∧ d.year < kv.2.2 then
              some ⟨fname, "impossible_software_date", "high",
                [("software_release", (kv.2.2 : ℚ))]⟩
            else none)
      | none => []
    else []
  let creator := pyLower (((recDoc r).bind DocumentMeta.creator).getD "")
  let producer := pyLower (((recDoc r).bind DocumentMeta.producer).getD "")
  let vendors : List String := ["microsoft", "adobe", "libre"]
  let part2 : List Anomaly :=
    if creator ≠ "" ∧ producer ≠ "" ∧ creator ≠ producer ∧
        (¬ (vendors.any (fun v => strContains creator v)) ∨
         ¬ (vendors.any (fun v => strContains producer v))) then
      [⟨fname, "software_inconsistency", "low", []⟩]
    else []
  part1 ++ part2

/-- `gps.get('coordinates')` under its truthiness test (line 181). -/
def gpsCoordinates (r : Record) : Option Coordinates :=
  (recExif r).bind Exif.gps |>.bind Gps.coordinates

/-- `_check_gps_anomalies` (lines 176-215): range check, null-island
check; the trailing GPS-timestamp block parses inside `try`/`pass` and
appends nothing either way. -/
def checkGpsAnomalies (fname : String) (r : Record) : List Anomaly :=
  match gpsCoordinates r with
  | none => []
  | some c =>
    let lat := c.latitude.getD 0
    let lon := c.longitude.getD 0
    (if ¬ (-90 ≤ lat ∧ lat ≤ 90 ∧ -180 ≤ lon ∧ lon ≤ 180) then
       [⟨fname, "invalid_gps", "high", [("latitude", lat), ("longitude", lon)]⟩]
     else []) ++
    (if |lat| < 1/10 ∧ |lon| < 1/10 then
       [⟨fname, "suspicious_gps", "medium", [("latitude", lat), ("longitude", lon)]⟩]
     else [])

/-- `_check_metadata_tampering` (lines 217-258); the timestamps block at
the end parses inside `try`/`pass` and appends nothing either way. -/
def checkMetadataTampering (fname : String) (r : Record) : List Anomaly :=
  let bag := r.metadata
  let part1 : List Anomaly :=
    if recType r = some "image" ∧ (bag.bind MetaBag.exif) = none ∧
        (bag.bind MetaBag.image) = none then
      [⟨fname, "missing_metadata", "medium", []⟩]
    else []
  let doc := recDoc r
  let part2 : List Anomaly :=
    if recType r = some "document" ∧
        truthyStr (doc.bind DocumentMeta.author) = none ∧
        truthyStr (doc.bind DocumentMeta.creator) = none ∧
        truthyStr (doc.bind DocumentMeta.producer) = none then
      [⟨fname, "missing_metadata", "low", []⟩]
    else []
  part1 ++ part2

/-- `_check_file_anomalies` (lines 260-291). -/
def checkFileAnomalies (fname : String) (r : Record) : List Anomaly :=
  let size := (r.file_info.bind FileInfo.size).getD 0
  let part1 : List Anomaly :=
    if recType r = some "image" ∧ size < 100 then
      [⟨fname, "suspicious_file_size", "low", [("size", size)]⟩]
    else []
  let part2 : List Anomaly :=
    if recType r = some "archive" ∧
        ((r.metadata.bind MetaBag.archive |>.bind ArchiveMeta.file_count).getD 0) = 0 then
      [⟨fname, "empty_archive", "low", []⟩]
    else []
  part1 ++ part2

/-- The five checks run over one record in source order; only the
timestamp check's body can raise internally and its `except` already
caught that, so each component is `.ok` by the catch in
`checkTimestampAnomalies` and by totality of the other four. -/
def analyzeRecord (parse : String → Option PyDate) (now : Int)
    (idx : Nat) (r : Record) : List Anomaly :=
  let fname := recName idx r
  checkTimestampAnomalies parse now fname r ++
  checkSoftwareAnomalies parse fname r ++
  checkGpsAnomalies fname r ++
  checkMetadataTampering fname r ++
  checkFileAnomalies fname r

/-- Summary block of `analyze` (`_build_summary`): severity counts, type
counts in first-occurrence order, distinct affected files. -/
structure ASummary where
  high : Nat
  medium : Nat
  low : Nat
  by_type : List (String × Nat)
  affected_files : List String
  deriving DecidableEq, Repr

/-- Count by type in first-occurrence order, as the dict loop does. -/
def countByType (l : List Anomaly) : List (String × Nat) :=
  (dedupFirst (l.map Anomaly.type)).map (fun t => (t, l.countP (fun a => a.type == t)))

/-- `_build_summary` (lines 293-315).  Every anomaly the checks create has
severity `high`, `medium` or `low`, so the `by_severity` dict lookup never
raises `KeyError`; the Python `set` of affected files is modelled in
first-insertion order. -/
def buildSummary (l : List Anomaly) : ASummary :=
  ⟨l.countP (fun a => a.severity == "high"),
   l.countP (fun a => a.severity == "medium"),
   l.countP (fun a => a.severity == "low"),
   countByType l,
   dedupFirst (l.map Anomaly.file)⟩

/-- The dictionary `analyze` returns. -/
structure AnalyzeResult where
  total_files_analyzed : Nat
  total_anomalies : Nat
  anomalies : List Anomaly
  summary : ASummary
  deriving DecidableEq, Repr

/-- `AnomalyDetector.analyze` as a total function on the record list. -/
def analyzeRun (parse : String → Option PyDate) (now : Int)
    (records : List Record) : AnalyzeResult :=
  let anomalies := (records.enum.map (fun ir => analyzeRecord parse now ir.1 ir.2)).flatten
  ⟨records.length, anomalies.length, anomalies, buildSummary anomalies⟩

/-- The five checks of one record in the exception-aware view: each check
contributes through `Except`, so an uncaught exception in any of them
would short-circuit.  The timestamp check is the catch of its raising body
(analyze.py lines 67/122); the other four checks have no uncaught raising
operation over schema-conforming records (their only parses sit inside
local `try`/`pass` blocks). -/
def analyzeRecordE (parse : String → Option PyDate) (now : Int)
    (idx : Nat) (r : Record) : Except String (List Anomaly) := do
  let fname := recName idx r
  let l1 ← (match checkTimestampBody parse now fname r with
            | .ok l => Except.ok l
            | .error l => Except.ok l)
  let l2 ← Except.ok (checkSoftwareAnomalies parse fname r)
  let l3 ← Except.ok (checkGpsAnomalies fname r)
  let l4 ← Except.ok (checkMetadataTampering fname r)
  let l5 ← Except.ok (checkFileAnomalies fname r)
  Except.ok (l1 ++ (l2 ++ (l3 ++ (l4 ++ l5))))

/-- `AnomalyDetector.analyze` in the exception-aware view: an uncaught
exception from any check of any record would propagate out of the loop
(lines 43-51) and abort the whole run. -/
def analyzeE (parse : String → Option PyDate) (now : Int)
    (records : List Record) : Except String AnalyzeResult := do
  let anomalies ← records.enum.foldlM (fun acc ir => do
    let l ← analyzeRecordE parse now ir.1 ir.2
    Except.ok (acc ++ l)) ([] : List Anomaly)
  Except.ok ⟨records.length, anomalies.length, anomalies, buildSummary anomalies⟩

/-! ## CorrelationEngine (`src/mex/correlate.py`) -/

/-- One entry of `self.relationships`; absent dict keys are `none`
(`similar_timestamp` has no `value`, grouping relationships have no
`distance_km`/`time_diff_hours`). -/
structure Relationship where
  type : String
  value : Option String
  files : List String
  distance_km : Option ℝ
  time_diff_hours : Option ℚ
  strength : String

/-- An attribute value carried on a graph edge. -/
inductive AttrVal where
  | s (v : String)
  | q (v : ℚ)
  | r (v : ℝ)

/-- One `networkx` edge: unordered endpoint pair plus attribute dict. -/
structure Edge where
  u : String
  v : String
  attrs : List (String × AttrVal)

/-- `networkx.Graph`: node attribute dicts are not modelled (no property
reads them); edges are one per unordered pair. -/
structure PyGraph where
  nodes : List String
  edges : List Edge

/-- `add_node`: appends the node unless already present. -/
def addNode (nodes : List String) (n : String) : List String :=
  if nodes.contains n then nodes else nodes ++ [n]

/-- Does this edge connect `u` and `v` (in either orientation)? -/
def sameEdge (e : Edge) (u v : String) : Bool :=
  (e.u == u && e.v == v) || (e.u == v && e.v == u)

/-- Python dict update: replace the value of an existing key, append new
keys in order. -/
def updAttrs (old new : List (String × AttrVal)) : List (String × AttrVal) :=
  new.foldl (fun acc kv =>
    if acc.any (fun p => p.1 == kv.1) then
      acc.map (fun p => if p.1 == kv.1 then kv else p)
    else acc ++ [kv]) old

/-- `add_edge(u, v, **attrs)`: ensures both nodes, updates the attribute
dict of an existing edge between the pair, else appends a fresh edge. -/
def addEdge (g : PyGraph) (u v : String) (attrs : List (String × AttrVal)) : PyGraph :=
  let ns := addNode (addNode g.nodes u) v
  if g.edges.any (fun e => sameEdge e u v) then
    ⟨ns, g.edges.map (fun e => if sameEdge e u v then ⟨e.u, e.v, updAttrs e.attrs attrs⟩ else e)⟩
  else ⟨ns, g.edges ++ [⟨u, v, attrs⟩]⟩

/-- A pending `add_edge` call: endpoints and attributes. -/
def addEdgeList (g : PyGraph) (l : List (String × String × List (String × AttrVal))) : PyGraph :=
  l.foldl (fun g' e => addEdge g' e.1 e.2.1 e.2.2) g

/-- Each record paired with its display name (`file_info.name` or
`file_{idx}`), in input order. -/
def namedRecords (records : List Record) : List (String × Record) :=
  records.enum.map (fun ir => (recName ir.1 ir.2, ir.2))

/-- The author strings one record contributes in `_correlate_authors`
(lines 69-87): each source field under its truthiness test, lowered and
trimmed, deduplicated as the Python `set` is. -/
def recAuthors (r : Record) : List String :=
  dedupFirst (([truthyStr ((recDoc r).bind DocumentMeta.author),
    truthyStr ((recExif r).bind Exif.software |>.bind SoftwareInfo.artist),
    truthyStr ((r.metadata.bind MetaBag.media |>.bind MediaMeta.audio_tags).bind AudioTags.artist)]).filterMap
      (fun o => o.map (fun s => pyStrip (pyLower s))))

/-- The (author, file) stream feeding `author_map`. -/
def authorPairs (records : List Record) : List (String × String) :=
  ((namedRecords records).map (fun nr => (recAuthors nr.2).map (fun a => (a, nr.1)))).flatten

/-- Groups of size ≥ 2 turned into relationships, shared by correlators
1, 2, 5 and 6. -/
def groupRels (pairs : List (String × String)) (rtype : String)
    (mkValue : String → String) (strength : String) : List Relationship :=
  ((groupPairs pairs).filter (fun g => 1 < g.2.length)).map
    (fun g => ⟨rtype, some (mkValue g.1), g.2, none, none, strength⟩)

/-- The `add_edge` calls of a grouping correlator: a full clique per
qualifying group, pairs in the double-loop order. -/
def groupEdgeAdds (pairs : List (String × String))
    (mkAttrs : String → List (String × AttrVal)) :
    List (String × String × List (String × AttrVal)) :=
  (((groupPairs pairs).filter (fun g => 1 < g.2.length)).map
    (fun g => (listPairs g.2).map (fun p => (p.1, p.2, mkAttrs g.1)))).flatten

/-- `_correlate_authors` relationships (lines 61-103). -/
def correlateAuthorsRels (records : List Record) : List Relationship :=
  groupRels (authorPairs records) "shared_author" id "high"

/-- `"{make} {model}".lower().strip()` when both camera fields pass their
truthiness test (lines 113-118). -/
def recDevice (r : Record) : Option String :=
  match truthyStr ((recExif r).bind Exif.camera |>.bind Camera.make),
        truthyStr ((recExif r).bind Exif.camera |>.bind Camera.model) with
  | some mk, some md => some (pyStrip (pyLower (mk ++ " " ++ md)))
  | _, _ => none

/-- The (device, file) stream feeding `device_map`. -/
def devicePairs (records : List Record) : List (String × String) :=
  (namedRecords records).filterMap (fun nr => (recDevice nr.2).map (fun d => (d, nr.1)))

/-- `_correlate_devices` relationships (lines 105-134). -/
def correlateDevicesRels (records : List Record) : List Relationship :=
  groupRels (devicePairs records) "shared_device" id "high"

/-- The software strings one record contributes in `_correlate_software`
(lines 249-269). -/
def recSoftwareNames (r : Record) : List String :=
  dedupFirst (([truthyStr ((recExif r).bind Exif.software |>.bind SoftwareInfo.software),
    truthyStr ((recDoc r).bind DocumentMeta.creator),
    truthyStr ((recDoc r).bind DocumentMeta.producer),
    truthyStr ((r.metadata.bind MetaBag.web).bind WebMeta.generator)]).filterMap
      (fun o => o.map (fun s => pyStrip (pyLower s))))

/-- The (software, file) stream feeding `software_map`. -/
def softwarePairs (records : List Record) : List (String × String) :=
  ((namedRecords records).map (fun nr => (recSoftwareNames nr.2).map (fun s => (s, nr.1)))).flatten

/-- `_correlate_software` relationships (lines 241-284). -/
def correlateSoftwareRels (records : List Record) : List Relationship :=
  groupRels (softwarePairs records) "shared_software" id "medium"

/-- `file_info.get('hash_sha256')` under its truthiness test (line 294). -/
def recHash (r : Record) : Option String :=
  truthyStr (r.file_info.bind FileInfo.hash_sha256)

/-- The (sha256, file) stream feeding `hash_map`. -/
def hashPairs (records : List Record) : List (String × String) :=
  (namedRecords records).filterMap (fun nr => (recHash nr.2).map (fun h => (h, nr.1)))

/-- The hash groups of size ≥ 2 (the qualifying entries of `hash_map`). -/
def dupGroups (records : List Record) : List (String × List String) :=
  (groupPairs (hashPairs records)).filter (fun g => 1 < g.2.length)

/-- The relationship `_correlate_hashes` emits for one qualifying group:
value is the first 16 hash characters plus an ellipsis marker. -/
def mkDupRel (g : String × List String) : Relationship :=
  ⟨"duplicate_files", some (g.1.take 16 ++ "..."), g.2, none, none, "exact"⟩

/-- `_correlate_hashes` relationships (lines 286-310). -/
def correlateHashesRels (records : List Record) : List Relationship :=
  (dupGroups records).map mkDupRel

/-- The `atan2` of `math`, on the real model: standard two-argument
arctangent. -/
noncomputable def pyAtan2 (y x : ℝ) : ℝ :=
  if 0 < x then Real.arctan (y / x)
  else if x < 0 ∧ 0 ≤ y then Real.arctan (y / x) + Real.pi
  else if x < 0 ∧ y < 0 then Real.arctan (y / x) - Real.pi
  else if x = 0 ∧ 0 < y then Real.pi / 2
  else if x = 0 ∧ y < 0 then -(Real.pi / 2)
  else 0

/-- `MetadataCorrelator._calculate_distance` (lines 312-331): the
Haversine great-circle distance, Earth radius 6371 km, over the real
model of the floating point computation. -/
noncomputable def calculate_distance (lat1 lon1 lat2 lon2 : ℝ) : ℝ :=
  let R : ℝ := 6371
  let rlat1 := lat1 * (Real.pi / 180)
  let rlon1 := lon1 * (Real.pi / 180)
  let rlat2 := lat2 * (Real.pi / 180)
  let rlon2 := lon2 * (Real.pi / 180)
  let dlat := rlat2 - rlat1
  let dlon := rlon2 - rlon1
  let a := Real.sin (dlat / 2) ^ 2 +
    Real.cos rlat1 * Real.cos rlat2 * Real.sin (dlon / 2) ^ 2
  let c := 2 * pyAtan2 (Real.sqrt a) (Real.sqrt (1 - a))
  R * c

/-- GPS observations gathered by `_correlate_gps` (lines 143-157): name
plus both coordinate values, kept only when the `coordinates` dict is
truthy and has both keys. -/
def gpsData (records : List Record) : List (String × ℚ × ℚ) :=
  (namedRecords records).filterMap (fun nr =>
    match gpsCoordinates nr.2 with
    | some c =>
      match c.latitude, c.longitude with
      | some la, some lo => some (nr.1, la, lo)
      | _, _ => none
    | none => none)

/-- The `value` string of a `shared_location` relationship; the source
formats with six decimals, which no property reads, so plain rendering
stands in for it. -/
def gpsValueStr (lat lon : ℚ) : String :=
  "(" ++ toString lat ++ ", " ++ toString lon ++ ")"

/-- `round(x, 3)` on the real model (half-up stands in for Python's
half-even; no property reads the rounded digit). -/
noncomputable def roundR3 (x : ℝ) : ℝ := ((⌊x * 1000 + 1/2⌋ : ℤ) : ℝ) / 1000

/-- `round(x, 2)` on rationals, same convention. -/
def roundQ2 (q : ℚ) : ℚ := ((⌊q * 100 + 1/2⌋ : ℤ) : ℚ) / 100

/-- `_correlate_gps` relationships (lines 159-177), tolerance 0.1 km. -/
noncomputable def correlateGpsRels (records : List Record) : List Relationship :=
  (listPairs (gpsData records)).filterMap (fun pr =>
    let d := calculate_distance (pr.1.2.1 : ℝ) (pr.1.2.2 : ℝ) (pr.2.2.1 : ℝ) (pr.2.2.2 : ℝ)
    if d ≤ 1/10 then
      some ⟨"shared_location", some (gpsValueStr pr.1.2.1 pr.1.2.2),
        [pr.1.1, pr.2.1], some (roundR3 d), none,
        if d < 1/100 then "high" else "medium"⟩
    else none)

/-- The `add_edge` calls of `_correlate_gps`. -/
noncomputable def gpsEdgeAdds (records : List Record) :
    List (String × String × List (String × AttrVal)) :=
  (listPairs (gpsData records)).filterMap (fun pr =>
    let d := calculate_distance (pr.1.2.1 : ℝ) (pr.1.2.2 : ℝ) (pr.2.2.1 : ℝ) (pr.2.2.2 : ℝ)
    if d ≤ 1/10 then
      some (pr.1.1, pr.2.1, [("relationship", AttrVal.s "shared_location"), ("distance", AttrVal.r d)])
    else none)

/-- The timestamp strings one record contributes in
`_correlate_timestamps` (lines 191-207): filesystem `created`, EXIF
`datetime_original`, document `created`, each under its truthiness test. -/
def recObsStrings (r : Record) : List String :=
  (tsCreated r).toList ++ (tsExifOriginal r).toList ++
  (truthyStr ((recDoc r).bind DocumentMeta.created)).toList

/-- The parsed observation stream (lines 209-218): unparsable strings are
skipped silently by the `try`/`except` around each parse. -/
def tsObs (parse : String → Option PyDate) (records : List Record) :
    List (String × Int) :=
  ((namedRecords records).map (fun nr =>
    (recObsStrings nr.2).filterMap (fun s => (parse s).map (fun d => (nr.1, d.sec))))).flatten

/-- `_correlate_timestamps` relationships (lines 220-239), tolerance
24 hours; self-pairs (same display name) are skipped. -/
def correlateTsRels (parse : String → Option PyDate) (records : List Record) :
    List Relationship :=
  (listPairs (tsObs parse records)).filterMap (fun pr =>
    if pr.1.1 = pr.2.1 then none
    else
      let diff : ℚ := |((pr.1.2 - pr.2.2 : Int) : ℚ)| / 3600
      if diff ≤ 24 then
        some ⟨"similar_timestamp", none, [pr.1.1, pr.2.1], none,
          some (roundQ2 diff), if diff < 1 then "high" else "medium"⟩
      else none)

/-- The `add_edge` calls of `_correlate_timestamps`. -/
def tsEdgeAdds (parse : String → Option PyDate) (records : List Record) :
    List (String × String × List (String × AttrVal)) :=
  (listPairs (tsObs parse records)).filterMap (fun pr =>
    if pr.1.1 = pr.2.1 then none
    else
      let diff : ℚ := |((pr.1.2 - pr.2.2 : Int) : ℚ)| / 3600
      if diff ≤ 24 then
        some (pr.1.1, pr.2.1, [("relationship", AttrVal.s "similar_timestamp"), ("time_diff", AttrVal.q diff)])
      else none)

/-- The mutable state of a `MetadataCorrelator` instance (`__init__`,
lines 19-28). -/
structure Correlator where
  metadata_list : List Record
  relationships : List Relationship
  graph : PyGraph

/-- A fresh correlator over the input list. -/
def Correlator.init (records : List Record) : Correlator :=
  ⟨records, [], ⟨[], []⟩⟩

/-- One correlator pass as a state transformer: the source interleaves a
relationship append with the edge additions of its group, but both grow
independent fields, so the net state is the appends followed by the edge
additions in the same order. -/
def corrStep (rels : List Relationship)
    (eadds : List (String × String × List (String × AttrVal)))
    (c : Correlator) : Correlator :=
  ⟨c.metadata_list, c.relationships ++ rels, addEdgeList c.graph eadds⟩

/-- `_correlate_authors` as a method on the state. -/
def correlate_authors (c : Correlator) : Correlator :=
  corrStep (correlateAuthorsRels c.metadata_list)
    (groupEdgeAdds (authorPairs c.metadata_list)
      (fun k => [("relationship", AttrVal.s "shared_author"), ("value", AttrVal.s k)])) c

/-- `_correlate_devices` as a method on the state. -/
def correlate_devices (c : Correlator) : Correlator :=
  corrStep (correlateDevicesRels c.metadata_list)
    (groupEdgeAdds (devicePairs c.metadata_list)
      (fun k => [("relationship", AttrVal.s "shared_device"), ("value", AttrVal.s k)])) c

/-- `_correlate_gps` as a method on the state. -/
noncomputable def correlate_gps (c : Correlator) : Correlator :=
  corrStep (correlateGpsRels c.metadata_list) (gpsEdgeAdds c.metadata_list) c

/-- `_correlate_timestamps` as a method on the state. -/
def correlate_timestamps (parse : String → Option PyDate) (c : Correlator) : Correlator :=
  corrStep (correlateTsRels parse c.metadata_list) (tsEdgeAdds parse c.metadata_list) c

/-- `_correlate_software` as a method on the state. -/
def correlate_software (c : Correlator) : Correlator :=
  corrStep (correlateSoftwareRels c.metadata_list)
    (groupEdgeAdds (softwarePairs c.metadata_list)
      (fun k => [("relationship", AttrVal.s "shared_software"), ("value", AttrVal.s k)])) c

/-- `_correlate_hashes` as a method on the state. -/
def correlate_hashes (c : Correlator) : Correlator :=
  corrStep (correlateHashesRels c.metadata_list)
    (groupEdgeAdds (hashPairs c.metadata_list)
      (fun k => [("relationship", AttrVal.s "duplicate"), ("hash", AttrVal.s k)])) c

/-- The dictionary `correlate` returns (the summary block is read by no
verified property and is omitted from the result model). -/
structure CorrResult where
  total_files : Nat
  total_relationships : Nat
  relationships : List Relationship
  graph : PyGraph

/-- `MetadataCorrelator.correlate` (lines 30-59) as a state-passing
method: add one node per record, run the six correlators in source
order, return the result dictionary along with the mutated state. -/
noncomputable def correlateMethod (parse : String → Option PyDate)
    (c : Correlator) : CorrResult × Correlator :=
  let c0 : Correlator := ⟨c.metadata_list, c.relationships,
    ⟨(namedRecords c.metadata_list).foldl (fun ns nr => addNode ns nr.1) c.graph.nodes,
     c.graph.edges⟩⟩
  let c6 := correlate_hashes (correlate_software (correlate_timestamps parse
    (correlate_gps (correlate_devices (correlate_authors c0)))))
  (⟨c6.metadata_list.length, c6.relationships.length, c6.relationships, c6.graph⟩, c6)

/-- One full run as the callers perform it (`main.py` lines 209-210): a
fresh correlator over the records, then `correlate()`. -/
noncomputable def correlateRun (parse : String → Option PyDate)
    (records : List Record) : CorrResult :=
  (correlateMethod parse (Correlator.init records)).1

/-! ## Concrete inputs used by witnesses and counterexamples -/

/-- A sha256 value shared by three records. -/
def h5 : String := "0123456789abcdef0123456789abcdef0123456789abcdef0123456789abcdef"

/-- A record carrying only a name and the shared hash `h5`. -/
def rec5 (nm : String) : Record := ⟨some ⟨some nm, none, none, some h5⟩, none, none⟩

/-- A record whose document author is whitespace only: truthy as stored, but trimming to the empty string. -/
def wsAuthorRec (nm : String) : Record :=
  ⟨some ⟨some nm, none, none, none⟩, none,
   some ⟨none, some ⟨some "   ", none, none, none, none⟩, none, none, none, none⟩⟩

/-- Two runs of `correlate` over the same input list, each constructing a fresh correlator exactly as the callers do (`main.py` lines 209-210). -/
noncomputable def correlateTwiceRuns (parse : String → Option PyDate)
    (records : List Record) : CorrResult × CorrResult :=
  ((correlateMethod parse (Correlator.init records)).1,
   (correlateMethod parse (Correlator.init records)).1)

/-- A parser fixing `c0` and `e0` to dates 365 days and one hour apart. -/
def parseC6 : String → Option PyDate := fun s =>
  if s = "c0" then some ⟨0, 1970⟩ else if s = "e0" then some ⟨31539600, 1971⟩ else none

/-- A record with filesystem `created` = `c0` and EXIF `datetime_original` = `e0`. -/
def recC6 : Record :=
  ⟨none, some ⟨some "c0", none, none⟩,
   some ⟨some ⟨none, none, none, some ⟨some "e0"⟩⟩, none, none, none, none, none⟩⟩

/-- A parser fixing `cw` and `ew` to dates exactly 366 days apart. -/
def parseC6w : String → Option PyDate := fun s =>
  if s = "cw" then some ⟨0, 1970⟩ else if s = "ew" then some ⟨31622400, 1971⟩ else none

/-- A record with filesystem `created` = `cw` and EXIF `datetime_original` = `ew`. -/
def recC6w : Record :=
  ⟨none, some ⟨some "cw", none, none⟩,
   some ⟨some ⟨none, none, none, some ⟨some "ew"⟩⟩, none, none, none, none, none⟩⟩

/-- A parser that fails on every string except `m1` (so `bad` is a malformed date). -/
def parseC7 : String → Option PyDate := fun s => if s = "m1" then some ⟨200, 1970⟩ else none

/-- A record with a malformed `created` string and a parseable future `modified`. -/
def recC7 : Record := ⟨none, some ⟨some "bad", some "m1", none⟩, none⟩

/-- A parser mapping `cf` and `mf` to two future dates. -/
def parseC7w : String → Option PyDate := fun s =>
  if s = "cf" then some ⟨500, 1970⟩ else if s = "mf" then some ⟨600, 1970⟩ else none

/-- A record whose `created` and `modified` both parse to dates in the future of `now = 100`. -/
def recC7w : Record := ⟨none, some ⟨some "cf", some "mf", none⟩, none⟩

/-- A parser that fails on everything (no timestamp observations). -/
def parseC10 : String → Option PyDate := fun _ => none

/-- A record with a name and a document author `Alice` and nothing else. -/
def recC10 (nm : String) : Record :=
  ⟨some ⟨some nm, none, none, none⟩, none,
   some ⟨none, some ⟨some "Alice", none, none, none, none⟩, none, none, none, none⟩⟩

/-! ## Helper lemmas -/

/-- `dedupFirst` preserves membership. -/
theorem mem_dedupFirst {a : String} : ∀ {l : List String}, a ∈ dedupFirst l ↔ a ∈ l := by
  intro l
  induction l with
  | nil => simp [dedupFirst]
  | cons x xs ih =>
    by_cases hax : a = x
    · subst hax
      simp [dedupFirst]
    · simp [dedupFirst, List.mem_filter, hax, ih]

/-- A value passing the truthiness test is not the empty string. -/
theorem truthy_ne {o : Option String} {s : String} (h : truthyStr o = some s) : s ≠ "" := by
  rcases o with _ | t
  · simp [truthyStr] at h
  · simp only [truthyStr, Option.some_bind] at h
    split_ifs at h with ht
    rw [Option.some_inj] at h
    exact fun hs => ht (h.trans hs)

/-- Filtering `dedupFirst l` for one key yields that key exactly once when it occurs in `l`. -/
theorem dedupFirst_filter_self (k : String) : ∀ (l : List String),
    (dedupFirst l).filter (fun y => y = k) = if k ∈ l then [k] else [] := by
  intro l
  induction l with
  | nil => simp [dedupFirst]
  | cons x xs ih =>
    by_cases hx : x = k
    · subst hx
      have hnil : ((dedupFirst xs).filter (fun y => y ≠ x)).filter (fun y => y = x) = [] := by
        rw [List.filter_filter, List.filter_eq_nil_iff]
        intro a _
        by_cases hax : a = x <;> simp [hax]
      simp [dedupFirst, List.filter_cons, hnil]
    · have hcomm : (dedupFirst xs).filter (fun a => decide (a = k) && !decide (a = x)) =
          (dedupFirst xs).filter (fun y => y = k) := by
        apply List.filter_congr
        intro a _
        by_cases hak : a = k
        · subst hak
          have hax : ¬ (a = x) := fun he => hx (he ▸ rfl)
          simp [hax]
        · simp [hak]
      have hxk : ¬ (k = x) := fun he => hx he.symm
      simp [dedupFirst, List.filter_cons, hx, hcomm, ih, List.mem_cons, hxk]

/-- The single group a key owns in a `defaultdict` grouping: its values in input order. -/
theorem groupPairs_filter_key (l : List (String × String)) (k : String) :
    (groupPairs l).filter (fun g => g.1 = k) =
      if k ∈ l.map (·.1) then [(k, (l.filter (fun p => p.1 = k)).map (·.2))] else [] := by
  rw [groupPairs, List.filter_map]
  have hcomp : ((fun g : String × List String => decide (g.1 = k)) ∘
      (fun k' => (k', (l.filter (fun p => p.1 = k')).map (·.2)))) =
      (fun y => decide (y = k)) := rfl
  rw [hcomp, dedupFirst_filter_self]
  split_ifs
  all_goals rfl

/-- A hash with at least one occurrence is among the keys. -/
theorem hashPairs_count_mem {records : List Record} {h : String}
    (hne : ((hashPairs records).filter (fun p => p.1 = h)) ≠ []) :
    h ∈ (hashPairs records).map (·.1) := by
  obtain ⟨p, hp⟩ := List.exists_mem_of_ne_nil _ hne
  have hmf := List.mem_filter.1 hp
  exact List.mem_map.2 ⟨p, hmf.1, of_decide_eq_true hmf.2⟩

/-- Every grouping relationship takes its value from a key of its pair stream. -/
theorem groupRels_value {pairs : List (String × String)} {t st : String}
    {mk : String → String} {rel : Relationship}
    (h : rel ∈ groupRels pairs t mk st) :
    ∃ k, k ∈ pairs.map (·.1) ∧ rel.value = some (mk k) ∧ rel.type = t := by
  simp only [groupRels, List.mem_map, List.mem_filter] at h
  obtain ⟨g, ⟨hg, _⟩, hrel⟩ := h
  refine ⟨g.1, ?_, ?_, ?_⟩
  · simp only [groupPairs, List.mem_map] at hg
    obtain ⟨k, hk, hgk⟩ := hg
    have : g.1 = k := by rw [← hgk]
    rw [this]
    exact mem_dedupFirst.1 hk
  · rw [← hrel]
  · rw [← hrel]

/-- Every grouping relationship has the correlator type and at least two files. -/
theorem groupRels_arity {pairs : List (String × String)} {t st : String}
    {mk : String → String} {rel : Relationship} (h : rel ∈ groupRels pairs t mk st) :
    rel.type = t ∧ 2 ≤ rel.files.length := by
  simp only [groupRels, List.mem_map, List.mem_filter] at h
  obtain ⟨g, ⟨_, hlen⟩, hrel⟩ := h
  constructor
  · rw [← hrel]
  · rw [← hrel]
    exact of_decide_eq_true hlen

/-- Every author group key is the trimmed lowering of a stored, non-empty author field. -/
theorem authorPairs_key {records : List Record} {p : String × String}
    (h : p ∈ authorPairs records) :
    ∃ s : String, s ≠ "" ∧ p.1 = pyStrip (pyLower s) := by
  simp only [authorPairs, List.mem_flatten, List.mem_map] at h
  obtain ⟨l, ⟨nr, hnr, hl⟩, hpl⟩ := h
  rw [← hl] at hpl
  simp only [List.mem_map] at hpl
  obtain ⟨a, ha, hpa⟩ := hpl
  rw [recAuthors, mem_dedupFirst] at ha
  simp only [List.mem_filterMap, List.mem_cons, List.mem_singleton] at ha
  obtain ⟨o, ho, hoa⟩ := ha
  rcases o with _ | s
  · simp at hoa
  · simp only [Option.map_some, Option.map_some', Option.some_inj] at hoa
    refine ⟨s, ?_, ?_⟩
    · rcases ho with h1 | h1 | h1 | h1
      · exact truthy_ne h1.symm
      · exact truthy_ne h1.symm
      · exact truthy_ne h1.symm
      · simp at h1
    · rw [← hpa, hoa]

/-- Every software group key is the trimmed lowering of a stored, non-empty software field. -/
theorem softwarePairs_key {records : List Record} {p : String × String}
    (h : p ∈ softwarePairs records) :
    ∃ s : String, s ≠ "" ∧ p.1 = pyStrip (pyLower s) := by
  simp only [softwarePairs, List.mem_flatten, List.mem_map] at h
  obtain ⟨l, ⟨nr, hnr, hl⟩, hpl⟩ := h
  rw [← hl] at hpl
  simp only [List.mem_map] at hpl
  obtain ⟨a, ha, hpa⟩ := hpl
  rw [recSoftwareNames, mem_dedupFirst] at ha
  simp only [List.mem_filterMap, List.mem_cons, List.mem_singleton] at ha
  obtain ⟨o, ho, hoa⟩ := ha
  rcases o with _ | s
  · simp at hoa
  · simp only [Option.map_some, Option.map_some', Option.some_inj] at hoa
    refine ⟨s, ?_, ?_⟩
    · rcases ho with h1 | h1 | h1 | h1 | h1
      · exact truthy_ne h1.symm
      · exact truthy_ne h1.symm
      · exact truthy_ne h1.symm
      · exact truthy_ne h1.symm
      · simp at h1
    · rw [← hpa, hoa]

/-- Every device group key is the trimmed lowering of the non-empty `make model` string. -/
theorem devicePairs_key {records : List Record} {p : String × String}
    (h : p ∈ devicePairs records) :
    ∃ s : String, s ≠ "" ∧ p.1 = pyStrip (pyLower s) := by
  simp only [devicePairs, List.mem_filterMap] at h
  obtain ⟨nr, hnr, hd⟩ := h
  rw [recDevice] at hd
  rcases hmk : truthyStr ((recExif nr.2).bind Exif.camera |>.bind Camera.make) with _ | mk
  · rw [hmk] at hd
    simp at hd
  · rcases hmd : truthyStr ((recExif nr.2).bind Exif.camera |>.bind Camera.model) with _ | md
    · rw [hmk, hmd] at hd
      simp at hd
    · rw [hmk, hmd] at hd
      simp only [Option.map_some, Option.map_some', Option.some_inj] at hd
      refine ⟨mk ++ " " ++ md, ?_, ?_⟩
      · intro he
        have hlen := congrArg String.length he
        simp [String.length_append, show (" ").length = 1 from rfl] at hlen
      · rw [← hd]

/-- Every hash group key is a stored, non-empty sha256 value. -/
theorem hashPairs_key {records : List Record} {p : String × String}
    (h : p ∈ hashPairs records) : p.1 ≠ "" := by
  simp only [hashPairs, List.mem_filterMap] at h
  obtain ⟨nr, hnr, hd⟩ := h
  rw [recHash] at hd
  rcases hh : truthyStr (nr.2.file_info.bind FileInfo.hash_sha256) with _ | k
  · rw [hh] at hd
    simp at hd
  · rw [hh] at hd
    simp only [Option.map_some, Option.map_some', Option.some_inj] at hd
    have := truthy_ne hh
    rw [← hd]
    exact this

/-- Every duplicate-files relationship has at least two files. -/
theorem hashRels_arity {records : List Record} {rel : Relationship}
    (h : rel ∈ correlateHashesRels records) :
    rel.type = "duplicate_files" ∧ 2 ≤ rel.files.length := by
  simp only [correlateHashesRels, List.mem_map] at h
  obtain ⟨g, hg, hrel⟩ := h
  have hlen := (List.mem_filter.1 hg).2
  constructor
  · rw [← hrel]
    rfl
  · rw [← hrel]
    exact of_decide_eq_true hlen

/-- Every shared-location relationship pairs exactly two files. -/
theorem gpsRels_arity {records : List Record} {rel : Relationship}
    (h : rel ∈ correlateGpsRels records) :
    rel.type = "shared_location" ∧ rel.files.length = 2 := by
  simp only [correlateGpsRels, List.mem_filterMap] at h
  obtain ⟨pr, _, hpr⟩ := h
  split at hpr
  · rw [Option.some_inj] at hpr
    rw [← hpr]
    exact ⟨rfl, rfl⟩
  · exact absurd hpr (by simp)

/-- Every similar-timestamp relationship pairs exactly two files. -/
theorem tsRels_arity {parse : String → Option PyDate} {records : List Record}
    {rel : Relationship} (h : rel ∈ correlateTsRels parse records) :
    rel.type = "similar_timestamp" ∧ rel.files.length = 2 := by
  simp only [correlateTsRels, List.mem_filterMap] at h
  obtain ⟨pr, _, hpr⟩ := h
  split at hpr
  · exact absurd hpr (by simp)
  · split at hpr
    · rw [Option.some_inj] at hpr
      rw [← hpr]
      exact ⟨rfl, rfl⟩
    · exact absurd hpr (by simp)

/-- The relationship list of a run is the six correlator outputs in source order. -/
theorem correlateRun_relationships (parse : String → Option PyDate) (records : List Record) :
    (correlateRun parse records).relationships =
      correlateAuthorsRels records ++ correlateDevicesRels records ++
      correlateGpsRels records ++ correlateTsRels parse records ++
      correlateSoftwareRels records ++ correlateHashesRels records := rfl

/-- The five checks of one record never leave an uncaught exception: the exception-aware view returns exactly the total view. -/
theorem analyzeRecordE_ok (parse : String → Option PyDate) (now : Int) (idx : Nat) (r : Record) :
    analyzeRecordE parse now idx r = Except.ok (analyzeRecord parse now idx r) := by
  cases hb : checkTimestampBody parse now (recName idx r) r with
  | ok l =>
    simp only [analyzeRecordE, analyzeRecord, checkTimestampAnomalies, hb, List.append_assoc]
    rfl
  | error l =>
    simp only [analyzeRecordE, analyzeRecord, checkTimestampAnomalies, hb, List.append_assoc]
    rfl

/-- The per-record loop of `analyze` in the exception-aware view succeeds and accumulates the anomalies of every record. -/
theorem analyzeE_go (parse : String → Option PyDate) (now : Int) :
    ∀ (l : List (Nat × Record)) (acc : List Anomaly),
    (l.foldlM (fun acc ir => Except.ok (acc ++ analyzeRecord parse now ir.1 ir.2)) acc
      : Except String (List Anomaly)) =
    Except.ok (acc ++ (l.map (fun ir => analyzeRecord parse now ir.1 ir.2)).flatten) := by
  intro l
  induction l with
  | nil =>
    intro acc
    simp only [List.foldlM_nil, List.map_nil, List.flatten_nil, List.append_nil]
    rfl
  | cons x xs ih =>
    intro acc
    have hred : ∀ (a : List Anomaly) (f : List Anomaly → Except String (List Anomaly)),
        (Except.ok a >>= f : Except String (List Anomaly)) = f a := fun _ _ => rfl
    simp only [List.foldlM_cons, hred, List.map_cons, List.flatten_cons]
    rw [ih, List.append_assoc]

/-- The `future_timestamp` count once the parses of `created` and `modified` succeeded: one per parsed timestamp after `now`, whatever the EXIF discrepancy part does (including its caught parse failure). -/
theorem body3_future_count (parse : String → Option PyDate) (now : Int)
    (fname : String) (r : Record) (created modified : Option PyDate) :
    (match checkTimestampBody3 parse now fname r created modified with
     | .ok l => l
     | .error l => l).countP (fun (a : Anomaly) => a.type == "future_timestamp") =
    (match created with | some c => if now < c.sec then 1 else 0 | none => 0) +
    (match modified with | some m => if now < m.sec then 1 else 0 | none => 0) := by
  rcases created with _ | c <;> rcases modified with _ | m <;>
    simp only [checkTimestampBody3] <;>
    rcases hE : tsExifOriginal r with _ | es
  all_goals try simp only [hE]
  all_goals try (rcases hP : parse es with _ | e <;> simp only [hP])
  all_goals first
    | (split_ifs <;> simp [List.countP_append, List.countP_cons])
    | simp [List.countP_append, List.countP_cons]

/-- The Haversine `a` term is invariant under swapping the two coordinates. -/
theorem aSymmHelp (A B C D : ℝ) :
    Real.sin ((B - A) / 2) ^ 2 + Real.cos A * Real.cos B * Real.sin ((D - C) / 2) ^ 2
    = Real.sin ((A - B) / 2) ^ 2 + Real.cos B * Real.cos A * Real.sin ((C - D) / 2) ^ 2 := by
  rw [show (A - B) / 2 = -((B - A) / 2) by ring, show (C - D) / 2 = -((D - C) / 2) by ring,
    Real.sin_neg, Real.sin_neg]
  ring

/-- Equal `a` terms give equal Haversine distances. -/
theorem distCongr (x y : ℝ) (h : x = y) :
    6371 * (2 * pyAtan2 (Real.sqrt x) (Real.sqrt (1 - x))) =
    6371 * (2 * pyAtan2 (Real.sqrt y) (Real.sqrt (1 - y))) := by rw [h]

/-! ## The verified properties, one per claim -/

/-- C1: `analyze` never raises.  Over schema-conforming records with
arbitrary strings in every date field and any parser behaviour, the
exception-aware view of `analyze` always returns `ok` with exactly the
anomalies of the total view: the internal date-parse failures of each
check are caught where the source has its `try`/`except`, and treated as
no anomaly from the point of failure on. -/
theorem analyze_never_raises (parse : String → Option PyDate) (now : Int)
    (records : List Record) :
    analyzeE parse now records = Except.ok (analyzeRun parse now records) := by
  have hred : ∀ (a : List Anomaly) (f : List Anomaly → Except String AnalyzeResult),
      (Except.ok a >>= f : Except String AnalyzeResult) = f a := fun _ _ => rfl
  have hfun : (fun (acc : List Anomaly) (ir : Nat × Record) =>
      (do
        let l ← analyzeRecordE parse now ir.1 ir.2
        Except.ok (acc ++ l) : Except String (List Anomaly))) =
      (fun acc ir => Except.ok (acc ++ analyzeRecord parse now ir.1 ir.2)) := by
    funext acc ir
    rw [analyzeRecordE_ok]
    rfl
  rw [analyzeE, hfun, analyzeE_go, hred, List.nil_append]
  rfl

/-- C2 counterexample: two records whose stored author is a whitespace
string pass the truthiness test, trim to the empty string, and form a
`shared_author` group whose shared value is the empty string. -/
theorem author_empty_group_cex :
    correlateAuthorsRels [wsAuthorRec "a.txt", wsAuthorRec "b.txt"] =
      [⟨"shared_author", some "", ["a.txt", "b.txt"], none, none, "high"⟩] := rfl

/-- C2 (amended): the grouping correlators never group on an absent field
value or on a stored empty string -- every group value derives (lowercased
and trimmed, or hash-prefixed) from a field value that was non-empty as
stored.  A whitespace-only stored value, however, trims to the empty
string, so an emitted group value can be empty (see the counterexample). -/
theorem grouping_values_from_nonempty (records : List Record) (rel : Relationship) :
    (rel ∈ correlateAuthorsRels records →
      ∃ s : String, s ≠ "" ∧ rel.value = some (pyStrip (pyLower s))) ∧
    (rel ∈ correlateDevicesRels records →
      ∃ s : String, s ≠ "" ∧ rel.value = some (pyStrip (pyLower s))) ∧
    (rel ∈ correlateSoftwareRels records →
      ∃ s : String, s ≠ "" ∧ rel.value = some (pyStrip (pyLower s))) ∧
    (rel ∈ correlateHashesRels records →
      ∃ s : String, s ≠ "" ∧ rel.value = some (s.take 16 ++ "...")) := by
  refine ⟨?_, ?_, ?_, ?_⟩
  · intro h
    obtain ⟨k, hk, hv, _⟩ := groupRels_value h
    obtain ⟨p, hp, hpk⟩ := List.mem_map.1 hk
    obtain ⟨s, hs, hps⟩ := authorPairs_key hp
    exact ⟨s, hs, by rw [hv, ← hpk, hps]; simp⟩
  · intro h
    obtain ⟨k, hk, hv, _⟩ := groupRels_value h
    obtain ⟨p, hp, hpk⟩ := List.mem_map.1 hk
    obtain ⟨s, hs, hps⟩ := devicePairs_key hp
    exact ⟨s, hs, by rw [hv, ← hpk, hps]; simp⟩
  · intro h
    obtain ⟨k, hk, hv, _⟩ := groupRels_value h
    obtain ⟨p, hp, hpk⟩ := List.mem_map.1 hk
    obtain ⟨s, hs, hps⟩ := softwarePairs_key hp
    exact ⟨s, hs, by rw [hv, ← hpk, hps]; simp⟩
  · intro h
    simp only [correlateHashesRels, List.mem_map] at h
    obtain ⟨g, hg, hrel⟩ := h
    have hgk : g.1 ∈ (hashPairs records).map (·.1) := by
      rw [dupGroups] at hg
      have hg' := List.mem_of_mem_filter hg
      simp only [groupPairs, List.mem_map] at hg'
      obtain ⟨k, hk, hgk⟩ := hg'
      have : g.1 = k := by rw [← hgk]
      rw [this]
      exact mem_dedupFirst.1 hk
    obtain ⟨p, hp, hpk⟩ := List.mem_map.1 hgk
    refine ⟨g.1, ?_, ?_⟩
    · rw [← hpk]
      exact hashPairs_key hp
    · rw [← hrel]
      rfl

/-- C3 counterexample: the claim is false -- there is no record on which
the GPS check emits both an `invalid_gps` and a `suspicious_gps` anomaly,
because `suspicious_gps` requires both coordinates inside (-0.1, 0.1),
which places them inside the valid ranges that `invalid_gps` requires
violated. -/
theorem gps_both_fire_impossible_cex :
    ¬ ∃ (fname : String) (r : Record),
      (∃ a ∈ checkGpsAnomalies fname r, a.type = "invalid_gps") ∧
      (∃ a ∈ checkGpsAnomalies fname r, a.type = "suspicious_gps") := by
  rintro ⟨fname, r, ⟨a, ha, hta⟩, ⟨b, hb, htb⟩⟩
  rcases hco : gpsCoordinates r with _ | c
  · simp only [checkGpsAnomalies, hco] at ha
    exact absurd ha (List.not_mem_nil a)
  · simp only [checkGpsAnomalies, hco] at ha hb
    have hP : ¬ (-90 ≤ c.latitude.getD 0 ∧ c.latitude.getD 0 ≤ 90 ∧
        -180 ≤ c.longitude.getD 0 ∧ c.longitude.getD 0 ≤ 180) := by
      intro hr
      rw [if_neg (not_not_intro hr), List.nil_append] at ha
      split_ifs at ha
      · rw [List.mem_singleton] at ha
        rw [ha] at hta
        simp at hta
      · exact absurd ha (List.not_mem_nil a)
    have hQ : |c.latitude.getD 0| < 1/10 ∧ |c.longitude.getD 0| < 1/10 := by
      by_contra hq
      rw [if_neg hq, List.append_nil] at hb
      split_ifs at hb
      rw [List.mem_singleton] at hb
      rw [hb] at htb
      simp at htb
    rcases abs_lt.1 hQ.1 with ⟨q1, q2⟩
    rcases abs_lt.1 hQ.2 with ⟨q3, q4⟩
    exact hP ⟨by linarith, by linarith, by linarith, by linarith⟩

/-- C3 (amended): the two GPS anomalies are mutually exclusive -- for
every record the GPS check emits at most one of `invalid_gps` /
`suspicious_gps`, never both. -/
theorem gps_anomalies_mutually_exclusive (fname : String) (r : Record) :
    (checkGpsAnomalies fname r).countP
      (fun a => a.type == "invalid_gps" || a.type == "suspicious_gps") ≤ 1 := by
  rcases hco : gpsCoordinates r with _ | c
  · simp [checkGpsAnomalies, hco]
  · simp only [checkGpsAnomalies, hco]
    rw [List.countP_append]
    by_cases hP : ¬ (-90 ≤ c.latitude.getD 0 ∧ c.latitude.getD 0 ≤ 90 ∧
        -180 ≤ c.longitude.getD 0 ∧ c.longitude.getD 0 ≤ 180)
    · have hQ : ¬ (|c.latitude.getD 0| < 1/10 ∧ |c.longitude.getD 0| < 1/10) := by
        rintro ⟨q1, q2⟩
        rcases abs_lt.1 q1 with ⟨a1, a2⟩
        rcases abs_lt.1 q2 with ⟨a3, a4⟩
        exact hP ⟨by linarith, by linarith, by linarith, by linarith⟩
      rw [if_pos hP, if_neg hQ]
      simp
    · rw [if_neg hP]
      split_ifs <;> simp

/-- C4: running `correlate()` twice on the identical input list (each run
on a fresh correlator, as the callers construct one) is idempotent: the
second run's relationship list and graph edge list are identical to the
first run's. -/
theorem correlate_twice_identical (parse : String → Option PyDate) (records : List Record) :
    (correlateTwiceRuns parse records).1.relationships =
      (correlateTwiceRuns parse records).2.relationships ∧
    (correlateTwiceRuns parse records).1.graph.edges =
      (correlateTwiceRuns parse records).2.graph.edges :=
  ⟨rfl, rfl⟩

/-- C5: when exactly 3 records carry the same sha256 hash `h`, the hash
correlator forms exactly one group for `h`, listing all 3 files, and emits
for it one `duplicate_files` relationship with strength `exact` and value
the first 16 hash characters followed by an ellipsis marker. -/
theorem duplicate_hash_group_of_three (records : List Record) (h : String)
    (hc : ((hashPairs records).filter (fun p => p.1 = h)).length = 3) :
    ∃ names : List String,
      (dupGroups records).filter (fun g => g.1 = h) = [(h, names)] ∧
      names.length = 3 ∧
      (⟨"duplicate_files", some (h.take 16 ++ "..."), names, none, none, "exact"⟩ : Relationship)
        ∈ correlateHashesRels records := by
  refine ⟨((hashPairs records).filter (fun p => p.1 = h)).map (·.2), ?_, ?_, ?_⟩
  · -- commute the two filters on groupPairs
    have hmem : h ∈ (hashPairs records).map (·.1) := by
      apply hashPairs_count_mem
      intro he
      rw [he] at hc
      simp at hc
    have hkey := groupPairs_filter_key (hashPairs records) h
    rw [if_pos hmem] at hkey
    rw [dupGroups, List.filter_filter]
    have hswap : (groupPairs (hashPairs records)).filter
        (fun a => decide (a.1 = h) && decide (1 < a.2.length)) =
        ((groupPairs (hashPairs records)).filter (fun g => g.1 = h)).filter
          (fun a => 1 < a.2.length) := by
      rw [List.filter_filter]
      apply List.filter_congr
      intro a _
      exact Bool.and_comm _ _
    rw [hswap, hkey]
    have hlen3 : (((hashPairs records).filter (fun p => p.1 = h)).map (·.2)).length = 3 := by
      rw [List.length_map]
      exact hc
    simp [List.filter_cons, hlen3]
  · rw [List.length_map]
    exact hc
  · have hmem : h ∈ (hashPairs records).map (·.1) := by
      apply hashPairs_count_mem
      intro he
      rw [he] at hc
      simp at hc
    have hkey := groupPairs_filter_key (hashPairs records) h
    rw [if_pos hmem] at hkey
    have hg : (h, ((hashPairs records).filter (fun p => p.1 = h)).map (·.2)) ∈
        groupPairs (hashPairs records) := by
      have : (h, ((hashPairs records).filter (fun p => p.1 = h)).map (·.2)) ∈
          (groupPairs (hashPairs records)).filter (fun g => g.1 = h) := by
        rw [hkey]
        exact List.mem_singleton.2 rfl
      exact List.mem_of_mem_filter this
    have hgd : (h, ((hashPairs records).filter (fun p => p.1 = h)).map (·.2)) ∈
        dupGroups records := by
      rw [dupGroups]
      apply List.mem_filter.2
      refine ⟨hg, ?_⟩
      simp only [List.length_map, hc]
      decide
    exact List.mem_map.2 ⟨_, hgd, rfl⟩

/-- Witness for C5 at a concrete input: three records sharing `h5`. -/
theorem duplicate_hash_group_of_three_witness :
    ∃ names : List String,
      (dupGroups [rec5 "a", rec5 "b", rec5 "c"]).filter (fun g => g.1 = h5) = [(h5, names)] ∧
      names.length = 3 ∧
      (⟨"duplicate_files", some (h5.take 16 ++ "..."), names, none, none, "exact"⟩ : Relationship)
        ∈ correlateHashesRels [rec5 "a", rec5 "b", rec5 "c"] :=
  duplicate_hash_group_of_three [rec5 "a", rec5 "b", rec5 "c"] h5 (by rfl)

/-- C6 counterexample: with `datetime_original` 365 days and one hour
after `created` -- more than 365 days apart, so the claim demands the
anomaly -- the check emits nothing, because Python computes
`abs(delta.days) = 365`, which is not more than 365. -/
theorem timestamp_discrepancy_boundary_cex :
    (checkTimestampAnomalies parseC6 100000000 "f" recC6).countP
      (fun a => a.type == "timestamp_discrepancy") = 0 := rfl

/-- C6 (amended): with `created` and `datetime_original` both present and
parseable (and `modified` absent or parseable), the MEDIUM
`timestamp_discrepancy` anomaly fires exactly when the floored day count
`(exif - created).days` has absolute value above 365 -- that is, when
the EXIF date is at least 366 days after, or more than 365 days before,
`created` -- and its details report that absolute floored day count. -/
theorem timestamp_discrepancy_floored (parse : String → Option PyDate) (now : Int)
    (fname : String) (r : Record) (cs : String) (c : PyDate) (es : String) (e : PyDate)
    (hcs : tsCreated r = some cs) (hc : parse cs = some c)
    (hm : tsModified r = none ∨ ∃ ms m, tsModified r = some ms ∧ parse ms = some m)
    (hes : tsExifOriginal r = some es) (he : parse es = some e) :
    (checkTimestampAnomalies parse now fname r).countP
      (fun a => a.type == "timestamp_discrepancy") =
      (if 365 < |tdDays (e.sec - c.sec)| then 1 else 0) ∧
    (365 < |tdDays (e.sec - c.sec)| →
      (⟨fname, "timestamp_discrepancy", "medium",
        [("difference_days", ((|tdDays (e.sec - c.sec)| : Int) : ℚ))]⟩ : Anomaly)
        ∈ checkTimestampAnomalies parse now fname r) := by
  rcases hm with hm | ⟨ms, m, hms, hmp⟩
  · simp only [checkTimestampAnomalies, checkTimestampBody, hcs, hc,
      checkTimestampBody2, hm, checkTimestampBody3, hes, he]
    by_cases hd : 365 < |tdDays (e.sec - c.sec)|
    · rw [if_pos hd]
      constructor
      · rw [if_pos hd]
        rw [List.countP_append]
        split_ifs <;> simp
      · intro _
        simp
    · rw [if_neg hd]
      constructor
      · rw [if_neg hd]
        split_ifs <;> simp
      · intro h
        exact absurd h hd
  · simp only [checkTimestampAnomalies, checkTimestampBody, hcs, hc,
      checkTimestampBody2, hms, hmp, checkTimestampBody3, hes, he]
    by_cases hd : 365 < |tdDays (e.sec - c.sec)|
    · rw [if_pos hd]
      constructor
      · rw [if_pos hd]
        rw [List.countP_append]
        split_ifs <;> simp
      · intro _
        simp
    · rw [if_neg hd]
      constructor
      · rw [if_neg hd]
        split_ifs <;> simp
      · intro h
        exact absurd h hd

/-- Witness for C6 at a concrete input: dates exactly 366 days apart,
where the anomaly fires and reports 366 days. -/
theorem timestamp_discrepancy_floored_witness :
    (checkTimestampAnomalies parseC6w 100000000 "f" recC6w).countP
      (fun a => a.type == "timestamp_discrepancy") =
      (if 365 < |tdDays ((⟨31622400, 1971⟩ : PyDate).sec - (⟨0, 1970⟩ : PyDate).sec)| then 1 else 0) ∧
    (365 < |tdDays ((⟨31622400, 1971⟩ : PyDate).sec - (⟨0, 1970⟩ : PyDate).sec)| →
      (⟨"f", "timestamp_discrepancy", "medium",
        [("difference_days",
          ((|tdDays ((⟨31622400, 1971⟩ : PyDate).sec - (⟨0, 1970⟩ : PyDate).sec)| : Int) : ℚ))]⟩ : Anomaly)
        ∈ checkTimestampAnomalies parseC6w 100000000 "f" recC6w) :=
  timestamp_discrepancy_floored parseC6w 100000000 "f" recC6w "cw" ⟨0, 1970⟩ "ew" ⟨31622400, 1971⟩
    rfl rfl (Or.inl rfl) rfl rfl

/-- C7 counterexample: a record whose `created` string is malformed and
whose `modified` parses to a future date yields no `future_timestamp`
anomaly at all -- the single `try`/`except` around the whole timestamp
check aborts it before the modified check runs, contradicting the claim
that the modified check fires regardless of a malformed `created`. -/
theorem future_modified_malformed_created_cex :
    (checkTimestampAnomalies parseC7 100 "f" recC7).countP
      (fun a => a.type == "future_timestamp") = 0 := rfl

/-- C7 (amended): when `created` and `modified` are each absent or
parseable, the check emits one HIGH `future_timestamp` anomaly for a
parsed `created` after `now` and, separately and in addition, one for a
parsed `modified` after `now` (both can fire).  When either string is
present but malformed, the whole timestamp check aborts and emits nothing
(see the counterexample). -/
theorem future_timestamp_fires (parse : String → Option PyDate) (now : Int)
    (fname : String) (r : Record)
    (hc : tsCreated r = none ∨ ∃ cs c, tsCreated r = some cs ∧ parse cs = some c)
    (hm : tsModified r = none ∨ ∃ ms m, tsModified r = some ms ∧ parse ms = some m) :
    (checkTimestampAnomalies parse now fname r).countP
      (fun a => a.type == "future_timestamp") =
    (match (tsCreated r).bind parse with
     | some c => if now < c.sec then 1 else 0
     | none => 0) +
    (match (tsModified r).bind parse with
     | some m => if now < m.sec then 1 else 0
     | none => 0) := by
  rcases hc with hc | ⟨cs, c, hcs, hcp⟩
  · rcases hm with hm | ⟨ms, m, hms, hmp⟩
    · simp only [checkTimestampAnomalies, checkTimestampBody, hc, checkTimestampBody2, hm,
        Option.none_bind]
      exact body3_future_count parse now fname r none none
    · simp only [checkTimestampAnomalies, checkTimestampBody, hc, checkTimestampBody2, hms, hmp,
        Option.none_bind, Option.some_bind]
      exact body3_future_count parse now fname r none (some m)
  · rcases hm with hm | ⟨ms, m, hms, hmp⟩
    · simp only [checkTimestampAnomalies, checkTimestampBody, hcs, hcp, checkTimestampBody2, hm,
        Option.none_bind, Option.some_bind]
      exact body3_future_count parse now fname r (some c) none
    · simp only [checkTimestampAnomalies, checkTimestampBody, hcs, hcp, checkTimestampBody2,
        hms, hmp, Option.none_bind, Option.some_bind]
      exact body3_future_count parse now fname r (some c) (some m)

/-- Witness for C7 at a concrete input where both anomalies fire (count 2). -/
theorem future_timestamp_fires_witness :
    (checkTimestampAnomalies parseC7w 100 "f" recC7w).countP
      (fun a => a.type == "future_timestamp") =
    (match (tsCreated recC7w).bind parseC7w with
     | some c => if (100 : Int) < c.sec then 1 else 0
     | none => 0) +
    (match (tsModified recC7w).bind parseC7w with
     | some m => if (100 : Int) < m.sec then 1 else 0
     | none => 0) :=
  future_timestamp_fires parseC7w 100 "f" recC7w
    (Or.inr ⟨"cf", ⟨500, 1970⟩, rfl, rfl⟩)
    (Or.inr ⟨"mf", ⟨600, 1970⟩, rfl, rfl⟩)

/-- C8: the Haversine distance (Earth radius 6371 km) is symmetric --
`d(A, B) = d(B, A)` for all coordinate pairs -- and returns zero whenever
the two coordinates are identical. -/
theorem haversine_symmetric_and_zero :
    (∀ lat1 lon1 lat2 lon2 : ℝ,
      calculate_distance lat1 lon1 lat2 lon2 = calculate_distance lat2 lon2 lat1 lon1) ∧
    (∀ lat lon : ℝ, calculate_distance lat lon lat lon = 0) := by
  constructor
  · intro lat1 lon1 lat2 lon2
    simp only [calculate_distance]
    exact distCongr _ _ (aSymmHelp (lat1 * (Real.pi / 180)) (lat2 * (Real.pi / 180))
      (lon1 * (Real.pi / 180)) (lon2 * (Real.pi / 180)))
  · intro lat lon
    simp only [calculate_distance, sub_self, zero_div, Real.sin_zero, ne_eq,
      OfNat.ofNat_ne_zero, not_false_eq_true, zero_pow, mul_zero, add_zero,
      Real.sqrt_zero, sub_zero, Real.sqrt_one]
    rw [pyAtan2, if_pos one_pos]
    simp [Real.arctan_zero]

/-- C9: `correlate` does not mutate the records: the `metadata_list` held
by the correlator after `correlate()` returns is exactly the list it was
constructed with, every record unchanged. -/
theorem correlate_does_not_mutate_records (parse : String → Option PyDate) (c : Correlator) :
    ((correlateMethod parse c).2).metadata_list = c.metadata_list ∧
    (∀ records : List Record,
      ((correlateMethod parse (Correlator.init records)).2).metadata_list = records) :=
  ⟨rfl, fun _ => rfl⟩

/-- C10: every relationship emitted by the two pairwise correlators
(`shared_location`, `similar_timestamp`) lists exactly 2 files, and every
relationship of a full `correlate` run lists at least 2 files (so the
grouping correlators list 2 or more). -/
theorem relationship_files_arity (parse : String → Option PyDate) (records : List Record)
    (rel : Relationship) (h : rel ∈ (correlateRun parse records).relationships) :
    ((rel.type = "shared_location" ∨ rel.type = "similar_timestamp") → rel.files.length = 2) ∧
    2 ≤ rel.files.length := by
  rw [correlateRun_relationships] at h
  simp only [List.mem_append] at h
  rcases h with ((((h | h) | h) | h) | h) | h
  · obtain ⟨ht, hlen⟩ := groupRels_arity h
    refine ⟨fun h' => ?_, hlen⟩
    rcases h' with h' | h' <;> exact absurd (ht.symm.trans h') (by decide)
  · obtain ⟨ht, hlen⟩ := groupRels_arity h
    refine ⟨fun h' => ?_, hlen⟩
    rcases h' with h' | h' <;> exact absurd (ht.symm.trans h') (by decide)
  · obtain ⟨_, h2⟩ := gpsRels_arity h
    exact ⟨fun _ => h2, le_of_eq h2.symm⟩
  · obtain ⟨_, h2⟩ := tsRels_arity h
    exact ⟨fun _ => h2, le_of_eq h2.symm⟩
  · obtain ⟨ht, hlen⟩ := groupRels_arity h
    refine ⟨fun h' => ?_, hlen⟩
    rcases h' with h' | h' <;> exact absurd (ht.symm.trans h') (by decide)
  · obtain ⟨ht, hlen⟩ := hashRels_arity h
    refine ⟨fun h' => ?_, hlen⟩
    rcases h' with h' | h' <;> exact absurd (ht.symm.trans h') (by decide)

/-- Witness for C10 at a concrete input: a two-record shared-author run. -/
theorem relationship_files_arity_witness :
    ((((⟨"shared_author", some "alice", ["a", "b"], none, none, "high"⟩ : Relationship).type =
          "shared_location") ∨
        (⟨"shared_author", some "alice", ["a", "b"], none, none, "high"⟩ : Relationship).type =
          "similar_timestamp") →
      (⟨"shared_author", some "alice", ["a", "b"], none, none, "high"⟩ : Relationship).files.length = 2) ∧
    2 ≤ (⟨"shared_author", some "alice", ["a", "b"], none, none, "high"⟩ : Relationship).files.length := by
  have hrels : (correlateRun parseC10 [recC10 "a", recC10 "b"]).relationships =
      [⟨"shared_author", some "alice", ["a", "b"], none, none, "high"⟩] := rfl
  exact relationship_files_arity parseC10 [recC10 "a", recC10 "b"] _
    (by rw [hrels]; exact List.mem_singleton.2 rfl)
